import Mathlib

/-!
Verification development for the follow/social-graph backend
("class-101/102/106" REST services).

The embedded-array variant (Follow controller) keeps two id arrays,
`followers` and `following`, on each user document; `followUser` and
`unfollowUser` mutate both participants inside one store transaction.
The normalized variant keeps a `Follow` collection with a compound
unique index and a pre-validate hook rejecting self-follows.
The class-106 auth controller registers and logs in users against a
user schema whose password field is hidden (`select: false`) and
hashed by a pre-save hook.

Below, each controller is embedded as a pure function from inputs and
an explicit store to an execution result: an event trace (transaction
open / commit / abort, HTTP response), the HTTP response itself, and
the resulting store.  Store failures are made explicit through a
`StoreBehavior` schedule saying which saves and the commit succeed.
-/

namespace FollowApp

/-- Embedded profile subdocument: a single image URL field. -/
structure Profile where
  imageUrl : String
deriving Repr, DecidableEq

/-- A user document: identity fields, credential hash (absent when not
selected by a query), profile, and the embedded `followers` /
`following` arrays of user ids. -/
structure UserDoc where
  id : String
  username : String
  email : String
  password : Option String
  bio : String
  profile : Profile
  followers : List String
  following : List String
deriving Repr, DecidableEq

/-- The user record store: the list of persisted user documents. -/
abbrev Store := List UserDoc

/-- Model of `User.findById`: the first document whose id matches. -/
def findById (s : Store) (uid : String) : Option UserDoc :=
  s.find? (fun u => u.id == uid)

/-- Model of `doc.save()`: write the document back over every stored
document carrying its id. -/
def saveUser (s : Store) (u : UserDoc) : Store :=
  s.map (fun v => if v.id == u.id then u else v)

/-- Hexadecimal digit test used by ObjectId validation. -/
def isHexChar (c : Char) : Bool :=
  c.isDigit || (('a' ≤ c) && (c ≤ 'f')) || (('A' ≤ c) && (c ≤ 'F'))

/-- Model of `mongoose.Types.ObjectId.isValid`: a 24-character
hexadecimal string. -/
def isValidObjectId (id : String) : Bool :=
  id.toList.length == 24 && id.toList.all isHexChar

/-- Which store operations succeed during one controller execution:
the two `save({session})` calls and the `commitTransaction`. -/
structure StoreBehavior where
  saveMeOk : Bool
  saveTargetOk : Bool
  commitOk : Bool
deriving Repr, DecidableEq

/-- The schedule on which every store operation succeeds. -/
def allOk : StoreBehavior := ⟨true, true, true⟩

/-- Observable events of one controller execution, in order. -/
inductive Event where
  | txOpen
  | txCommit
  | txAbort
  | respond (status : Nat)
deriving Repr, DecidableEq

/-- HTTP response shape `{success, message}` with its status code. -/
structure Response where
  status : Nat
  success : Bool
  message : String
deriving Repr, DecidableEq

/-- Result of one controller execution: ordered event trace, the HTTP
response, and the store after the execution. -/
structure ExecResult where
  events : List Event
  response : Response
  store : Store
deriving Repr, DecidableEq

/-- Embedding of `exports.followUser` (Follow controller, embedded-array
variant).  The session is started and the transaction opened at entry
(source lines 30–31); validation checks follow, each returning its
error response directly; on the happy path both arrays are pushed, both
documents saved in the session, and the transaction committed; a store
error inside the try block aborts the transaction and reaches the
global error handler (HTTP 500). -/
def followUser (beh : StoreBehavior) (myId targetUserId : String) (s : Store) : ExecResult :=
  if !(isValidObjectId targetUserId) then
    { events := [.txOpen, .respond 400]
      response := ⟨400, false, "Invalid user ID"⟩
      store := s }
  else if myId == targetUserId then
    { events := [.txOpen, .respond 400]
      response := ⟨400, false, "You cannot follow yourself"⟩
      store := s }
  else
    match findById s myId, findById s targetUserId with
    | some me, some targetUser =>
      if me.following.contains targetUserId then
        { events := [.txOpen, .respond 409]
          response := ⟨409, false, "Already following this user"⟩
          store := s }
      else
        if beh.saveMeOk && beh.saveTargetOk && beh.commitOk then
          { events := [.txOpen, .txCommit, .respond 200]
            response := ⟨200, true, "User followed successfully"⟩
            store :=
              saveUser
                (saveUser s { me with following := me.following ++ [targetUserId] })
                { targetUser with followers := targetUser.followers ++ [myId] } }
        else
          { events := [.txOpen, .txAbort, .respond 500]
            response := ⟨500, false, "Internal Server Error"⟩
            store := s }
    | _, _ =>
      { events := [.txOpen, .respond 404]
        response := ⟨404, false, "User not found"⟩
        store := s }

/-- Embedding of `exports.unfollowUser`: same session/transaction shape;
after validation both arrays are rewritten with `filter`, removing every
occurrence of the counterpart id, and both documents are saved. -/
def unfollowUser (beh : StoreBehavior) (myId targetUserId : String) (s : Store) : ExecResult :=
  if !(isValidObjectId targetUserId) then
    { events := [.txOpen, .respond 400]
      response := ⟨400, false, "Invalid user ID"⟩
      store := s }
  else
    match findById s myId, findById s targetUserId with
    | some me, some targetUser =>
      if beh.saveMeOk && beh.saveTargetOk && beh.commitOk then
        { events := [.txOpen, .txCommit, .respond 200]
          response := ⟨200, true, "User unfollowed successfully"⟩
          store :=
            saveUser
              (saveUser s { me with following := me.following.filter (fun id => id != targetUserId) })
              { targetUser with followers := targetUser.followers.filter (fun id => id != myId) } }
      else
        { events := [.txOpen, .txAbort, .respond 500]
          response := ⟨500, false, "Internal Server Error"⟩
          store := s }
    | _, _ =>
      { events := [.txOpen, .respond 404]
        response := ⟨404, false, "User not found"⟩
        store := s }

/-- Public-safe user summary: the fields selected by
`populate("followers", "username email profile")`. -/
structure UserSummary where
  username : String
  email : String
  profile : Profile
deriving Repr, DecidableEq

/-- Projection of a user document to its public summary. -/
def summaryOf (u : UserDoc) : UserSummary :=
  ⟨u.username, u.email, u.profile⟩

/-- Model of `populate`: resolve each id against the store, keeping the
selected public fields of resolved documents and dropping dangling ids. -/
def populateSummaries (s : Store) (ids : List String) : List UserSummary :=
  ids.filterMap (fun i => (findById s i).map summaryOf)

/-- Result of the two read-only list endpoints. -/
inductive ListResult where
  | invalidId
  | notFound
  | ok (items : List UserSummary) (total : Nat)
deriving Repr, DecidableEq

/-- Embedding of `exports.getFollowers`: validate the id, look the user
up, populate the `followers` array with public summaries, and report the
populated list together with its length. -/
def getFollowers (userId : String) (s : Store) : ListResult :=
  if !(isValidObjectId userId) then .invalidId
  else
    match findById s userId with
    | none => .notFound
    | some user =>
      .ok (populateSummaries s user.followers) (populateSummaries s user.followers).length

/-- Embedding of `exports.getFollowing`, symmetric to `getFollowers`. -/
def getFollowing (userId : String) (s : Store) : ListResult :=
  if !(isValidObjectId userId) then .invalidId
  else
    match findById s userId with
    | none => .notFound
    | some user =>
      .ok (populateSummaries s user.following) (populateSummaries s user.following).length

/-- Concrete 24-hex-character user ids for test fixtures. -/
def idA : String := "aaaaaaaaaaaaaaaaaaaaaaaa"

/-- Second fixture id. -/
def idB : String := "bbbbbbbbbbbbbbbbbbbbbbbb"

/-- Third fixture id. -/
def idC : String := "cccccccccccccccccccccccc"

/-- Default profile image of the user schema. -/
def defaultProfile : Profile :=
  ⟨"https://ik.imagekit.io/Bharat/default-user-profile-icon.avif"⟩

/-- Fixture user with id `idA` and empty graph arrays. -/
def alice : UserDoc :=
  { id := idA, username := "alice", email := "alice@example.com"
    password := some "hashA", bio := "", profile := defaultProfile
    followers := [], following := [] }

/-- Fixture user with id `idB` and empty graph arrays. -/
def bob : UserDoc :=
  { id := idB, username := "bob", email := "bob@example.com"
    password := some "hashB", bio := "", profile := defaultProfile
    followers := [], following := [] }

/-- Fixture store holding the two fixture users. -/
def store0 : Store := [alice, bob]

/-- Fixture: alice's following array holds `idB` twice. -/
def aliceDup : UserDoc :=
  { alice with following := [idB, idB] }

/-- Fixture: bob's followers array holds `idA` twice. -/
def bobDup : UserDoc :=
  { bob with followers := [idA, idA] }

/-- Fixture store whose arrays contain duplicated ids. -/
def storeDup : Store := [aliceDup, bobDup]

/-- Fixture: bob already lists `idA` as a follower while alice's
following array does not list `idB` — the two arrays are out of
lockstep. -/
def bobSkewed : UserDoc :=
  { bob with followers := [idA] }

/-- Fixture store in the out-of-lockstep state. -/
def storeSkewed : Store := [alice, bobSkewed]

/-- Fixture: alice with a different stored credential. -/
def alicePw2 : UserDoc := { alice with password := some "otherhash" }

/-- Fixture store equal to `store0` except for alice's password. -/
def store0Pw2 : Store := [alicePw2, bob]

/-- Fixture: alice already follows bob. -/
def aliceFollows : UserDoc := { alice with following := [idB] }

/-- Fixture: bob already followed by alice. -/
def bobFollowed : UserDoc := { bob with followers := [idA] }

/-- Fixture store with one existing edge alice→bob. -/
def storeEdge : Store := [aliceFollows, bobFollowed]

/-- Blank out a document's credential field, keeping everything else. -/
def scrubPassword (u : UserDoc) : UserDoc :=
  { u with password := none }

/-- Two stores differ at most in users' password fields. -/
def pwEquiv (s t : Store) : Prop :=
  s.map scrubPassword = t.map scrubPassword

/-- Every stored user's two graph arrays are duplicate-free. -/
def NodupArrays (s : Store) : Prop :=
  ∀ u ∈ s, u.followers.Nodup ∧ u.following.Nodup

/-- The embedded arrays are mutually consistent (in lockstep): one
user appears among another's followers exactly when the other appears
in the first one's following array. -/
def Lockstep (s : Store) : Prop :=
  ∀ a b ua ub, findById s a = some ua → findById s b = some ub →
    (b ∈ ua.following ↔ a ∈ ub.followers)

end FollowApp

namespace FollowModel

/-!
Normalized variant (`Follow` model): a collection of `(follower,
following)` edge documents guarded by a compound unique index, with a
pre-validate hook rejecting self-follows.
-/

/-- One follow edge document: ordered pair of user-id references. -/
structure FollowDoc where
  follower : String
  following : String
deriving Repr, DecidableEq

/-- Embedding of the `followSchema.pre("validate")` hook: when both
references are present and equal, validation fails with the
self-follow error; otherwise it passes. -/
def preValidate (follower following : Option String) : Except String Unit :=
  match follower, following with
  | some f, some g =>
    if f == g then .error "User cannot follow themselves" else .ok ()
  | _, _ => .ok ()

/-- Model of the compound unique index `{follower: 1, following: 1}`:
an insert of an already-present pair is refused by the store. -/
def uniqueInsert (edges : List FollowDoc) (e : FollowDoc) : Except String (List FollowDoc) :=
  if edges.contains e then .error "E11000 duplicate key error" else .ok (edges ++ [e])

/-- Embedding of `followSchema.statics.followUser` (`this.create`):
run document validation (the pre-validate hook), then insert under the
unique index. -/
def createFollow (edges : List FollowDoc) (followerId followingId : String) :
    Except String (List FollowDoc) :=
  match preValidate (some followerId) (some followingId) with
  | .error e => .error e
  | .ok _ => uniqueInsert edges ⟨followerId, followingId⟩

end FollowModel

namespace Auth106

/-!
class-106 auth controller: registration stores
`bcrypt.hash(password, 12)` into a document whose pre-save hook hashes
the (modified) password field again; login fetches the user without
re-selecting the password, which the schema hides with `select: false`.
-/

/-- Abstract model of `bcrypt.hash`: an injective tagging of the input.
Salting is irrelevant to the claims, so the model is deterministic. -/
def bcryptHashStr (p : String) : String :=
  "bcrypt$" ++ p

/-- Model of `bcrypt.compare` against a possibly-absent stored hash:
bcrypt rejects (throws) when the hash argument is missing, otherwise it
reports whether the hash is the hash of the candidate. -/
def bcryptCompare (candidate : String) (stored : Option String) : Except String Bool :=
  match stored with
  | none => .error "data and hash arguments required"
  | some h => .ok (h == bcryptHashStr candidate)

/-- A stored class-106 user record (as persisted, password included). -/
structure AuthUser where
  id : String
  username : String
  email : String
  password : String
  bio : String
deriving Repr, DecidableEq

/-- Embedding of the `UserSchema.pre("save")` hook: a modified password
field is bcrypt-hashed before the write. -/
def preSaveHook (passwordModified : Bool) (password : String) : String :=
  if passwordModified then bcryptHashStr password else password

/-- The credential `RegisterController` ends up persisting for a given
plaintext: the controller itself hashes the plaintext, and `User.create`
triggers the pre-save hook on the (freshly set, hence modified) field. -/
def registerStoredPassword (plaintext : String) : String :=
  preSaveHook true (bcryptHashStr plaintext)

/-- The password value a default query projection yields: the schema
declares `select: false`, and `LoginController` does not re-select it,
so the fetched document carries no password. -/
def selectedPassword (_u : AuthUser) : Option String :=
  none

/-- Outcomes of `LoginController`, tagged with their HTTP status. -/
inductive LoginResult where
  | badRequest
  | invalidCredentials
  | loginFailed
  | success (userId : String)
deriving Repr, DecidableEq

/-- Whether a login outcome is the HTTP 200 success response. -/
def LoginResult.isSuccess : LoginResult → Bool
  | .success _ => true
  | _ => false

/-- Embedding of `LoginController`: require both fields, find the user
by email or username (without re-selecting the password), compare the
supplied password with the fetched credential; a thrown comparison is
caught and surfaced as the 500 "Login failed" response. -/
def LoginController (identifier password : String) (db : List AuthUser) : LoginResult :=
  if identifier == "" || password == "" then .badRequest
  else
    match db.find? (fun u => u.email == identifier || u.username == identifier) with
    | none => .invalidCredentials
    | some u =>
      match bcryptCompare password (selectedPassword u) with
      | .error _ => .loginFailed
      | .ok false => .invalidCredentials
      | .ok true => .success u.id

end Auth106

namespace FollowApp

/-- A found document's id equals the id it was looked up by. -/
lemma findById_id {s : Store} {a : String} {u : UserDoc} (h : findById s a = some u) :
    u.id = a := by
  unfold findById at h
  have hb := List.find?_some h
  exact eq_of_beq hb

/-- Looking a document up after a save: the lookup result is the old
result with the saved document substituted where the ids match. -/
lemma findById_saveUser (s : Store) (u : UserDoc) (a : String) :
    findById (saveUser s u) a
      = (findById s a).map (fun v => if v.id == u.id then u else v) := by
  unfold findById saveUser
  rw [List.find?_map]
  have hp : ((fun w : UserDoc => w.id == a) ∘ fun v => if v.id == u.id then u else v)
      = fun w : UserDoc => w.id == a := by
    funext v
    by_cases hv : v.id = u.id <;> simp [Function.comp, hv]
  rw [hp]

/-- Saving one user's document leaves lookups of other ids unchanged. -/
lemma findById_saveUser_ne {s : Store} {u : UserDoc} {a : String} (h : a ≠ u.id) :
    findById (saveUser s u) a = findById s a := by
  rw [findById_saveUser]
  cases hfa : findById s a with
  | none => rfl
  | some v =>
    have hv : v.id = a := findById_id hfa
    simp [hv, beq_iff_eq, h]

/-- Saving a document that was present makes the saved version the one
the store returns. -/
lemma findById_saveUser_self {s : Store} {u v : UserDoc}
    (hfa : findById s u.id = some v) :
    findById (saveUser s u) u.id = some u := by
  rw [findById_saveUser, hfa]
  have hv : v.id = u.id := findById_id hfa
  simp [hv]

/-- Filtering out an id that is not present leaves the array as it was. -/
lemma filter_ne_of_not_mem {l : List String} {b : String} (h : b ∉ l) :
    l.filter (fun id => id != b) = l := by
  refine List.filter_eq_self.mpr ?_
  intro a ha
  simp only [bne_iff_ne, ne_eq, decide_eq_true_eq]
  rintro rfl
  exact h ha

/-- Filtering an id out removes every occurrence of it. -/
lemma count_filter_ne (l : List String) (b : String) :
    (l.filter (fun id => id != b)).count b = 0 := by
  refine List.count_eq_zero.mpr ?_
  intro hmem
  rcases List.mem_filter.mp hmem with ⟨-, hb⟩
  simp at hb

/-- C3: following yourself fails with the self-follow 400 response and
creates no edge — the store is returned untouched; in the normalized
variant the pre-validate hook rejects every document whose follower
equals its following. -/
theorem self_follow_rejected :
    (∀ beh A s, isValidObjectId A = true →
      (followUser beh A A s).response = ⟨400, false, "You cannot follow yourself"⟩
      ∧ (followUser beh A A s).store = s)
    ∧ (∀ x, FollowModel.preValidate (some x) (some x)
        = Except.error "User cannot follow themselves") := by
  constructor
  · intro beh A s hv
    unfold followUser
    simp [hv]
  · intro x
    simp [FollowModel.preValidate]

/-- Witness for C3 at a concrete user and store. -/
theorem self_follow_rejected_witness :
    isValidObjectId idA = true
    ∧ (followUser allOk idA idA store0).response
        = ⟨400, false, "You cannot follow yourself"⟩
    ∧ (followUser allOk idA idA store0).store = store0 :=
  ⟨by decide, self_follow_rejected.1 allOk idA store0 (by decide)⟩

/-- Looking up the first saved document after two saves of documents
with different ids yields the first saved version. -/
lemma findById_two_saves_fst {s : Store} {u1 u2 v1 : UserDoc}
    (h1 : findById s u1.id = some v1) (hne : u1.id ≠ u2.id) :
    findById (saveUser (saveUser s u1) u2) u1.id = some u1 := by
  rw [findById_saveUser_ne hne]
  exact findById_saveUser_self h1

/-- Looking up the second saved document after two saves of documents
with different ids yields the second saved version. -/
lemma findById_two_saves_snd {s : Store} {u1 u2 v2 : UserDoc}
    (h2 : findById s u2.id = some v2) (hne : u2.id ≠ u1.id) :
    findById (saveUser (saveUser s u1) u2) u2.id = some u2 := by
  have hinner : findById (saveUser s u1) u2.id = some v2 := by
    rw [findById_saveUser_ne hne]
    exact h2
  exact findById_saveUser_self hinner

/-- Appending a fresh id to an array makes its count exactly one. -/
lemma count_append_self (l : List String) (b : String) (h : b ∉ l) :
    (l ++ [b]).count b = 1 := by
  simp [List.count_append, List.count_eq_zero.mpr h]

/-- The embedded-array half of the double-follow property, proved by
computing both executions. -/
lemma follow_twice_single_edge_embedded
    (uA uB : UserDoc) (s : Store)
    (hvB : isValidObjectId uB.id = true)
    (hne : uA.id ≠ uB.id)
    (hA : findById s uA.id = some uA)
    (hB : findById s uB.id = some uB)
    (hnf : uB.id ∉ uA.following)
    (hnr : uA.id ∉ uB.followers) :
    (followUser allOk uA.id uB.id s).response.status = 200
    ∧ (∃ uA2, findById (followUser allOk uA.id uB.id s).store uA.id = some uA2
        ∧ uA2.following.count uB.id = 1)
    ∧ (∃ uB2, findById (followUser allOk uA.id uB.id s).store uB.id = some uB2
        ∧ uB2.followers.count uA.id = 1)
    ∧ (followUser allOk uA.id uB.id (followUser allOk uA.id uB.id s).store).response
        = ⟨409, false, "Already following this user"⟩
    ∧ (followUser allOk uA.id uB.id (followUser allOk uA.id uB.id s).store).store
        = (followUser allOk uA.id uB.id s).store := by
  have hAB : (uA.id == uB.id) = false := by simp [beq_iff_eq, hne]
  have hc : uA.following.contains uB.id = false := by
    refine Bool.eq_false_iff.mpr ?_
    intro hcontra
    exact hnf (List.elem_iff.mp hcontra)
  have estore1 : followUser allOk uA.id uB.id s
      = { events := [.txOpen, .txCommit, .respond 200]
          response := ⟨200, true, "User followed successfully"⟩
          store :=
            saveUser
              (saveUser s { uA with following := uA.following ++ [uB.id] })
              { uB with followers := uB.followers ++ [uA.id] } } := by
    unfold followUser
    rw [hA, hB]
    simp [hvB, hAB, hc, hnf, allOk]
  have hfA2 : findById (followUser allOk uA.id uB.id s).store uA.id
      = some { uA with following := uA.following ++ [uB.id] } := by
    rw [estore1]
    exact findById_two_saves_fst hA hne
  have hfB2 : findById (followUser allOk uA.id uB.id s).store uB.id
      = some { uB with followers := uB.followers ++ [uA.id] } := by
    rw [estore1]
    exact findById_two_saves_snd hB hne.symm
  have hc2 : ({ uA with following := uA.following ++ [uB.id] } : UserDoc).following.contains uB.id
      = true := by
    simp
  have estore2 : followUser allOk uA.id uB.id (followUser allOk uA.id uB.id s).store
      = { events := [.txOpen, .respond 409]
          response := ⟨409, false, "Already following this user"⟩
          store := (followUser allOk uA.id uB.id s).store } := by
    conv_lhs => rw [followUser]
    rw [hfA2, hfB2]
    simp [hvB, hAB, hc2]
  refine ⟨by rw [estore1], ⟨_, hfA2, count_append_self uA.following uB.id hnf⟩,
    ⟨_, hfB2, count_append_self uB.followers uA.id hnr⟩, by rw [estore2], by rw [estore2]⟩

/-- C1: following a user twice in sequence creates exactly one edge —
after the first call each array holds the counterpart id exactly once,
and the second call answers 409 "Already following" while leaving the
store untouched; in the normalized variant, inserting the same pair
twice leaves one edge row, the second insert being refused by the
compound unique index. -/
theorem follow_twice_single_edge :
    (∀ (uA uB : UserDoc) (s : Store),
      isValidObjectId uB.id = true → uA.id ≠ uB.id →
      findById s uA.id = some uA → findById s uB.id = some uB →
      uB.id ∉ uA.following → uA.id ∉ uB.followers →
      (followUser allOk uA.id uB.id s).response.status = 200
      ∧ (∃ uA2, findById (followUser allOk uA.id uB.id s).store uA.id = some uA2
          ∧ uA2.following.count uB.id = 1)
      ∧ (∃ uB2, findById (followUser allOk uA.id uB.id s).store uB.id = some uB2
          ∧ uB2.followers.count uA.id = 1)
      ∧ (followUser allOk uA.id uB.id (followUser allOk uA.id uB.id s).store).response
          = ⟨409, false, "Already following this user"⟩
      ∧ (followUser allOk uA.id uB.id (followUser allOk uA.id uB.id s).store).store
          = (followUser allOk uA.id uB.id s).store)
    ∧ (∀ (edges : List FollowModel.FollowDoc) (a b : String),
        a ≠ b → (⟨a, b⟩ : FollowModel.FollowDoc) ∉ edges →
        FollowModel.createFollow edges a b = Except.ok (edges ++ [⟨a, b⟩])
        ∧ FollowModel.createFollow (edges ++ [⟨a, b⟩]) a b
            = Except.error "E11000 duplicate key error") := by
  constructor
  · intro uA uB s hvB hne hA hB hnf hnr
    exact follow_twice_single_edge_embedded uA uB s hvB hne hA hB hnf hnr
  · intro edges a b hne hmem
    have hab : (a == b) = false := by simp [beq_iff_eq, hne]
    have hc1 : edges.contains (⟨a, b⟩ : FollowModel.FollowDoc) = false := by
      refine Bool.eq_false_iff.mpr ?_
      intro hct
      exact hmem (List.elem_iff.mp hct)
    have hc2 : (edges ++ [(⟨a, b⟩ : FollowModel.FollowDoc)]).contains
        (⟨a, b⟩ : FollowModel.FollowDoc) = true :=
      List.elem_iff.mpr (by simp)
    constructor
    · unfold FollowModel.createFollow FollowModel.preValidate FollowModel.uniqueInsert
      simp [hab, hc1, hmem]
    · unfold FollowModel.createFollow FollowModel.preValidate FollowModel.uniqueInsert
      simp [hab, hc2]

/-- Witness for C1: alice follows bob twice starting from the empty
graph, and the pair is inserted twice into an empty edge collection. -/
theorem follow_twice_single_edge_witness :
    (isValidObjectId bob.id = true ∧ alice.id ≠ bob.id
    ∧ findById store0 alice.id = some alice ∧ findById store0 bob.id = some bob
    ∧ bob.id ∉ alice.following ∧ alice.id ∉ bob.followers
    ∧ ((followUser allOk alice.id bob.id store0).response.status = 200
      ∧ (∃ uA2, findById (followUser allOk alice.id bob.id store0).store alice.id = some uA2
          ∧ uA2.following.count bob.id = 1)
      ∧ (∃ uB2, findById (followUser allOk alice.id bob.id store0).store bob.id = some uB2
          ∧ uB2.followers.count alice.id = 1)
      ∧ (followUser allOk alice.id bob.id (followUser allOk alice.id bob.id store0).store).response
          = ⟨409, false, "Already following this user"⟩
      ∧ (followUser allOk alice.id bob.id (followUser allOk alice.id bob.id store0).store).store
          = (followUser allOk alice.id bob.id store0).store))
    ∧ (idA ≠ idB ∧ (⟨idA, idB⟩ : FollowModel.FollowDoc) ∉ ([] : List FollowModel.FollowDoc)
      ∧ (FollowModel.createFollow [] idA idB = Except.ok ([] ++ [⟨idA, idB⟩])
        ∧ FollowModel.createFollow ([] ++ [(⟨idA, idB⟩ : FollowModel.FollowDoc)]) idA idB
            = Except.error "E11000 duplicate key error")) :=
  ⟨⟨by decide, by decide, by decide, by decide, by decide, by decide,
    follow_twice_single_edge.1 alice bob store0
      (by decide) (by decide) (by decide) (by decide) (by decide) (by decide)⟩,
   ⟨by decide, by decide,
    follow_twice_single_edge.2 [] idA idB (by decide) (by decide)⟩⟩


/-- Exhaustive case analysis of `followUser`: every execution either
fails and hands the store back untouched, or answers the 200 success
response with both participants found, distinct, not yet linked, and
both array pushes saved. -/
lemma followUser_spec (beh : StoreBehavior) (A B : String) (s : Store) :
    ((followUser beh A B s).response.success = false ∧ (followUser beh A B s).store = s)
    ∨ ((followUser beh A B s).response = ⟨200, true, "User followed successfully"⟩
      ∧ ∃ uA uB, findById s A = some uA ∧ findById s B = some uB ∧ A ≠ B
        ∧ uA.id = A ∧ uB.id = B
        ∧ (followUser beh A B s).store
          = saveUser (saveUser s { uA with following := uA.following ++ [B] })
              { uB with followers := uB.followers ++ [A] }) := by
  unfold followUser
  split
  · exact Or.inl ⟨rfl, rfl⟩
  · split
    · exact Or.inl ⟨rfl, rfl⟩
    next heq =>
      split
      next me tu hA hB =>
        split
        · exact Or.inl ⟨rfl, rfl⟩
        · split
          · right
            have hne : A ≠ B := by simpa [beq_iff_eq] using heq
            exact ⟨rfl, me, tu, hA, hB, hne, findById_id hA, findById_id hB, rfl⟩
          · exact Or.inl ⟨rfl, rfl⟩
      next h1 h2 => exact Or.inl ⟨rfl, rfl⟩

/-- C2: `followUser` is all-or-nothing — every failure outcome leaves
the store exactly as it was, and a success outcome is answered only
when both participants' documents were found and both array mutations
were saved together. -/
theorem follow_all_or_nothing (beh : StoreBehavior) (A B : String) (s : Store) :
    ((followUser beh A B s).response.success = false → (followUser beh A B s).store = s)
    ∧ ((followUser beh A B s).response.success = true →
        ∃ uA uB, findById s A = some uA ∧ findById s B = some uB
          ∧ findById (followUser beh A B s).store A
              = some { uA with following := uA.following ++ [B] }
          ∧ findById (followUser beh A B s).store B
              = some { uB with followers := uB.followers ++ [A] }) := by
  rcases followUser_spec beh A B s with ⟨hf, hs⟩ | ⟨hresp, uA, uB, hA, hB, hne, hidA, hidB, hst⟩
  · refine ⟨fun _ => hs, fun htrue => absurd htrue ?_⟩
    rw [hf]
    exact Bool.false_ne_true
  · constructor
    · intro hfalse
      rw [hresp] at hfalse
      cases hfalse
    · intro _
      subst hidA
      subst hidB
      refine ⟨uA, uB, hA, hB, ?_, ?_⟩
      · rw [hst]
        exact findById_two_saves_fst hA hne
      · rw [hst]
        exact findById_two_saves_snd hB hne.symm

/-- Witness for C2: a store error (failed first save) mutates nothing;
the clean run links alice and bob together. -/
theorem follow_all_or_nothing_witness :
    ((followUser ⟨false, true, true⟩ alice.id bob.id store0).response.success = false
      ∧ (followUser ⟨false, true, true⟩ alice.id bob.id store0).store = store0)
    ∧ ((followUser allOk alice.id bob.id store0).response.success = true
      ∧ ∃ uA uB, findById store0 alice.id = some uA ∧ findById store0 bob.id = some uB
          ∧ findById (followUser allOk alice.id bob.id store0).store alice.id
              = some { uA with following := uA.following ++ [bob.id] }
          ∧ findById (followUser allOk alice.id bob.id store0).store bob.id
              = some { uB with followers := uB.followers ++ [alice.id] }) :=
  ⟨⟨by decide, (follow_all_or_nothing ⟨false, true, true⟩ alice.id bob.id store0).1 (by decide)⟩,
   ⟨by decide, (follow_all_or_nothing allOk alice.id bob.id store0).2 (by decide)⟩⟩

/-- C5: unfollowing when no edge exists still answers the 200 success
response, and both participants' documents are exactly as before —
removing a non-existent edge is a no-op, not a failure. -/
theorem unfollow_missing_edge_succeeds
    (uA uB : UserDoc) (s : Store)
    (hvB : isValidObjectId uB.id = true)
    (hne : uA.id ≠ uB.id)
    (hA : findById s uA.id = some uA)
    (hB : findById s uB.id = some uB)
    (hnf : uB.id ∉ uA.following)
    (hnr : uA.id ∉ uB.followers) :
    (unfollowUser allOk uA.id uB.id s).response
      = ⟨200, true, "User unfollowed successfully"⟩
    ∧ findById (unfollowUser allOk uA.id uB.id s).store uA.id = some uA
    ∧ findById (unfollowUser allOk uA.id uB.id s).store uB.id = some uB := by
  have euA : { uA with following := uA.following.filter (fun id => id != uB.id) } = uA := by
    rw [filter_ne_of_not_mem hnf]
  have euB : { uB with followers := uB.followers.filter (fun id => id != uA.id) } = uB := by
    rw [filter_ne_of_not_mem hnr]
  have estore : unfollowUser allOk uA.id uB.id s
      = { events := [.txOpen, .txCommit, .respond 200]
          response := ⟨200, true, "User unfollowed successfully"⟩
          store := saveUser (saveUser s uA) uB } := by
    unfold unfollowUser
    rw [hA, hB]
    simp [hvB, allOk, euA, euB]
  rw [estore]
  exact ⟨rfl, findById_two_saves_fst hA hne, findById_two_saves_snd hB hne.symm⟩

/-- Witness for C5: alice and bob with empty arrays. -/
theorem unfollow_missing_edge_succeeds_witness :
    isValidObjectId bob.id = true ∧ alice.id ≠ bob.id
    ∧ findById store0 alice.id = some alice ∧ findById store0 bob.id = some bob
    ∧ bob.id ∉ alice.following ∧ alice.id ∉ bob.followers
    ∧ ((unfollowUser allOk alice.id bob.id store0).response
        = ⟨200, true, "User unfollowed successfully"⟩
      ∧ findById (unfollowUser allOk alice.id bob.id store0).store alice.id = some alice
      ∧ findById (unfollowUser allOk alice.id bob.id store0).store bob.id = some bob) :=
  ⟨by decide, by decide, by decide, by decide, by decide, by decide,
    unfollow_missing_edge_succeeds alice bob store0
      (by decide) (by decide) (by decide) (by decide) (by decide) (by decide)⟩

/-- C10: after a successful unfollow every occurrence of the
counterpart id is gone from both arrays — the filter-based removal
deletes all occurrences, whatever their prior multiplicity. -/
theorem unfollow_removes_all_occurrences
    (uA uB : UserDoc) (s : Store)
    (hvB : isValidObjectId uB.id = true)
    (hne : uA.id ≠ uB.id)
    (hA : findById s uA.id = some uA)
    (hB : findById s uB.id = some uB) :
    (unfollowUser allOk uA.id uB.id s).response.status = 200
    ∧ (∃ uA2, findById (unfollowUser allOk uA.id uB.id s).store uA.id = some uA2
        ∧ uA2.following.count uB.id = 0)
    ∧ (∃ uB2, findById (unfollowUser allOk uA.id uB.id s).store uB.id = some uB2
        ∧ uB2.followers.count uA.id = 0) := by
  have estore : unfollowUser allOk uA.id uB.id s
      = { events := [.txOpen, .txCommit, .respond 200]
          response := ⟨200, true, "User unfollowed successfully"⟩
          store :=
            saveUser
              (saveUser s { uA with following := uA.following.filter (fun id => id != uB.id) })
              { uB with followers := uB.followers.filter (fun id => id != uA.id) } } := by
    unfold unfollowUser
    rw [hA, hB]
    simp [hvB, allOk]
  rw [estore]
  refine ⟨rfl,
    ⟨{ uA with following := uA.following.filter (fun id => id != uB.id) },
      findById_two_saves_fst hA hne, count_filter_ne uA.following uB.id⟩,
    ⟨{ uB with followers := uB.followers.filter (fun id => id != uA.id) },
      findById_two_saves_snd hB hne.symm, count_filter_ne uB.followers uA.id⟩⟩

/-- Scrubbing passwords commutes with lookup: ids are untouched. -/
lemma findById_map_scrub (s : Store) (a : String) :
    findById (s.map scrubPassword) a = (findById s a).map scrubPassword := by
  unfold findById
  rw [List.find?_map]
  have hp : ((fun u : UserDoc => u.id == a) ∘ scrubPassword) = fun u : UserDoc => u.id == a := by
    funext u
    rfl
  rw [hp]

/-- Populated summaries are oblivious to the credential field. -/
lemma populateSummaries_scrub (s : Store) (ids : List String) :
    populateSummaries (s.map scrubPassword) ids = populateSummaries s ids := by
  unfold populateSummaries
  apply List.filterMap_congr
  intro i _
  rw [findById_map_scrub, Option.map_map]
  rfl

/-- listFollowers is oblivious to the credential field. -/
lemma getFollowers_scrub (uid : String) (s : Store) :
    getFollowers uid (s.map scrubPassword) = getFollowers uid s := by
  unfold getFollowers
  by_cases hv : isValidObjectId uid
  · simp only [hv, Bool.not_true, Bool.false_eq_true, if_false]
    rw [findById_map_scrub]
    cases hu : findById s uid with
    | none => rfl
    | some u =>
      show ListResult.ok (populateSummaries (List.map scrubPassword s) u.followers)
          (populateSummaries (List.map scrubPassword s) u.followers).length
        = ListResult.ok (populateSummaries s u.followers) (populateSummaries s u.followers).length
      rw [populateSummaries_scrub]
  · simp [hv]

/-- listFollowing is oblivious to the credential field. -/
lemma getFollowing_scrub (uid : String) (s : Store) :
    getFollowing uid (s.map scrubPassword) = getFollowing uid s := by
  unfold getFollowing
  by_cases hv : isValidObjectId uid
  · simp only [hv, Bool.not_true, Bool.false_eq_true, if_false]
    rw [findById_map_scrub]
    cases hu : findById s uid with
    | none => rfl
    | some u =>
      show ListResult.ok (populateSummaries (List.map scrubPassword s) u.following)
          (populateSummaries (List.map scrubPassword s) u.following).length
        = ListResult.ok (populateSummaries s u.following) (populateSummaries s u.following).length
      rw [populateSummaries_scrub]
  · simp [hv]

/-- C7: the list endpoints never expose credential material — stores
differing only in password fields produce identical responses, and
every returned item is exactly the username/email/profile summary of a
stored user. -/
theorem list_endpoints_credential_free :
    (∀ s t uid, pwEquiv s t →
      getFollowers uid s = getFollowers uid t ∧ getFollowing uid s = getFollowing uid t)
    ∧ (∀ s uid items total, getFollowers uid s = ListResult.ok items total →
        ∀ it ∈ items, ∃ u ∈ s, it = summaryOf u)
    ∧ (∀ s uid items total, getFollowing uid s = ListResult.ok items total →
        ∀ it ∈ items, ∃ u ∈ s, it = summaryOf u) := by
  refine ⟨?_, ?_, ?_⟩
  · intro s t uid hpw
    unfold pwEquiv at hpw
    constructor
    · rw [← getFollowers_scrub uid s, hpw, getFollowers_scrub]
    · rw [← getFollowing_scrub uid s, hpw, getFollowing_scrub]
  · intro s uid items total hok it hit
    unfold getFollowers at hok
    by_cases hv : isValidObjectId uid
    · simp only [hv, Bool.not_true, Bool.false_eq_true, if_false] at hok
      cases hu : findById s uid with
      | none => rw [hu] at hok; cases hok
      | some u =>
        rw [hu] at hok
        cases hok
        rcases List.mem_filterMap.mp hit with ⟨i, -, hmap⟩
        cases hfi : findById s i with
        | none => rw [hfi] at hmap; cases hmap
        | some w =>
          rw [hfi] at hmap
          refine ⟨w, ?_, ?_⟩
          · unfold findById at hfi
            exact List.mem_of_find?_eq_some hfi
          · cases hmap
            rfl
    · simp [hv] at hok
  · intro s uid items total hok it hit
    unfold getFollowing at hok
    by_cases hv : isValidObjectId uid
    · simp only [hv, Bool.not_true, Bool.false_eq_true, if_false] at hok
      cases hu : findById s uid with
      | none => rw [hu] at hok; cases hok
      | some u =>
        rw [hu] at hok
        cases hok
        rcases List.mem_filterMap.mp hit with ⟨i, -, hmap⟩
        cases hfi : findById s i with
        | none => rw [hfi] at hmap; cases hmap
        | some w =>
          rw [hfi] at hmap
          refine ⟨w, ?_, ?_⟩
          · unfold findById at hfi
            exact List.mem_of_find?_eq_some hfi
          · cases hmap
            rfl
    · simp [hv] at hok

/-- Witness for C7: changing alice's stored hash changes no response,
and a populated follower list consists of stored users' summaries. -/
theorem list_endpoints_credential_free_witness :
    pwEquiv store0 store0Pw2
    ∧ (getFollowers alice.id store0 = getFollowers alice.id store0Pw2
      ∧ getFollowing alice.id store0 = getFollowing alice.id store0Pw2)
    ∧ (getFollowers bobSkewed.id storeSkewed = ListResult.ok [summaryOf alice] 1
      ∧ ∀ it ∈ [summaryOf alice], ∃ u ∈ storeSkewed, it = summaryOf u) :=
  ⟨rfl,
   list_endpoints_credential_free.1 store0 store0Pw2 alice.id rfl,
   by decide,
   list_endpoints_credential_free.2.1 storeSkewed bobSkewed.id [summaryOf alice] 1 (by decide)⟩

/-- Lookups of a third id pass through two saves unchanged. -/
lemma findById_two_saves_other {s : Store} {u1 u2 : UserDoc} {a : String}
    (h1 : a ≠ u1.id) (h2 : a ≠ u2.id) :
    findById (saveUser (saveUser s u1) u2) a = findById s a := by
  rw [findById_saveUser_ne h2, findById_saveUser_ne h1]

/-- Membership in a populated summary list, unfolded. -/
lemma mem_populate_iff {s : Store} {ids : List String} {y : UserSummary} :
    y ∈ populateSummaries s ids ↔ ∃ i ∈ ids, (findById s i).map summaryOf = some y := by
  unfold populateSummaries
  exact List.mem_filterMap

/-- Two populations agree on membership when the id lists agree on
membership and every id resolves to the same summary in both stores. -/
lemma populate_membership_congr {s t : Store} {f g : List String}
    (hids : ∀ x, x ∈ f ↔ x ∈ g)
    (hsum : ∀ i, (findById t i).map summaryOf = (findById s i).map summaryOf) :
    ∀ y, y ∈ populateSummaries t f ↔ y ∈ populateSummaries s g := by
  intro y
  rw [mem_populate_iff, mem_populate_iff]
  constructor
  · rintro ⟨i, hif, hm⟩
    exact ⟨i, (hids i).mp hif, by rw [← hsum i]; exact hm⟩
  · rintro ⟨i, hig, hm⟩
    exact ⟨i, (hids i).mpr hig, by rw [hsum i]; exact hm⟩

/-- C6: for an existing edge, unfollowing and then re-following
restores exactly one edge — each array holds the counterpart exactly
once — and `listFollowers` of the target has the same membership after
the round trip as before it. -/
theorem unfollow_refollow_round_trip
    (uA uB : UserDoc) (s : Store)
    (hvB : isValidObjectId uB.id = true)
    (hne : uA.id ≠ uB.id)
    (hA : findById s uA.id = some uA)
    (hB : findById s uB.id = some uB)
    (_hfw : uB.id ∈ uA.following)
    (hrv : uA.id ∈ uB.followers) :
    (followUser allOk uA.id uB.id (unfollowUser allOk uA.id uB.id s).store).response.status = 200
    ∧ (∃ uA2, findById (followUser allOk uA.id uB.id
          (unfollowUser allOk uA.id uB.id s).store).store uA.id = some uA2
        ∧ uA2.following.count uB.id = 1)
    ∧ (∃ uB2, findById (followUser allOk uA.id uB.id
          (unfollowUser allOk uA.id uB.id s).store).store uB.id = some uB2
        ∧ uB2.followers.count uA.id = 1
        ∧ ∀ x, x ∈ uB2.followers ↔ x ∈ uB.followers)
    ∧ (∃ items0 total0 items2 total2,
        getFollowers uB.id s = ListResult.ok items0 total0
        ∧ getFollowers uB.id (followUser allOk uA.id uB.id
            (unfollowUser allOk uA.id uB.id s).store).store = ListResult.ok items2 total2
        ∧ ∀ y, y ∈ items2 ↔ y ∈ items0) := by
  have hAB : (uA.id == uB.id) = false := by simp [beq_iff_eq, hne]
  have estore1 : unfollowUser allOk uA.id uB.id s
      = { events := [.txOpen, .txCommit, .respond 200]
          response := ⟨200, true, "User unfollowed successfully"⟩
          store :=
            saveUser
              (saveUser s { uA with following := uA.following.filter (fun id => id != uB.id) })
              { uB with followers := uB.followers.filter (fun id => id != uA.id) } } := by
    unfold unfollowUser
    rw [hA, hB]
    simp [hvB, allOk]
  have hfA1 : findById (unfollowUser allOk uA.id uB.id s).store uA.id
      = some { uA with following := uA.following.filter (fun id => id != uB.id) } := by
    rw [estore1]
    exact findById_two_saves_fst hA hne
  have hfB1 : findById (unfollowUser allOk uA.id uB.id s).store uB.id
      = some { uB with followers := uB.followers.filter (fun id => id != uA.id) } := by
    rw [estore1]
    exact findById_two_saves_snd hB hne.symm
  have hnm : uB.id ∉ uA.following.filter (fun id => id != uB.id) := by
    intro hmem
    rcases List.mem_filter.mp hmem with ⟨-, hbad⟩
    simp at hbad
  have hnm2 : uA.id ∉ uB.followers.filter (fun id => id != uA.id) := by
    intro hmem
    rcases List.mem_filter.mp hmem with ⟨-, hbad⟩
    simp at hbad
  have hc : (uA.following.filter (fun id => id != uB.id)).contains uB.id = false := by
    refine Bool.eq_false_iff.mpr ?_
    intro hcontra
    exact hnm (List.elem_iff.mp hcontra)
  have estore2 : followUser allOk uA.id uB.id (unfollowUser allOk uA.id uB.id s).store
      = { events := [.txOpen, .txCommit, .respond 200]
          response := ⟨200, true, "User followed successfully"⟩
          store :=
            saveUser
              (saveUser (unfollowUser allOk uA.id uB.id s).store
                { uA with following :=
                    uA.following.filter (fun id => id != uB.id) ++ [uB.id] })
              { uB with followers :=
                  uB.followers.filter (fun id => id != uA.id) ++ [uA.id] } } := by
    conv_lhs => rw [followUser]
    rw [hfA1, hfB1]
    simp [hvB, hAB, hc, hnm, allOk]
  have hfA2 : findById (followUser allOk uA.id uB.id
      (unfollowUser allOk uA.id uB.id s).store).store uA.id
      = some { uA with following := uA.following.filter (fun id => id != uB.id) ++ [uB.id] } := by
    rw [estore2]
    exact findById_two_saves_fst hfA1 hne
  have hfB2 : findById (followUser allOk uA.id uB.id
      (unfollowUser allOk uA.id uB.id s).store).store uB.id
      = some { uB with followers := uB.followers.filter (fun id => id != uA.id) ++ [uA.id] } := by
    rw [estore2]
    exact findById_two_saves_snd hfB1 hne.symm
  have hmemB : ∀ x, x ∈ uB.followers.filter (fun id => id != uA.id) ++ [uA.id]
      ↔ x ∈ uB.followers := by
    intro x
    by_cases hx : x = uA.id
    · subst hx
      simp [hrv]
    · simp [List.mem_append, List.mem_filter, hx]
  have hsum : ∀ i, (findById (followUser allOk uA.id uB.id
      (unfollowUser allOk uA.id uB.id s).store).store i).map summaryOf
      = (findById s i).map summaryOf := by
    intro i
    by_cases hiA : i = uA.id
    · subst hiA
      rw [hfA2, hA]
      rfl
    · by_cases hiB : i = uB.id
      · subst hiB
        rw [hfB2, hB]
        rfl
      · rw [estore2, estore1]
        rw [findById_two_saves_other (by intro h; exact hiA h) (by intro h; exact hiB h),
          findById_two_saves_other (by intro h; exact hiA h) (by intro h; exact hiB h)]
  have hgf0 : getFollowers uB.id s
      = ListResult.ok (populateSummaries s uB.followers)
          (populateSummaries s uB.followers).length := by
    unfold getFollowers
    rw [hB]
    simp [hvB]
  have hgf2 : getFollowers uB.id (followUser allOk uA.id uB.id
      (unfollowUser allOk uA.id uB.id s).store).store
      = ListResult.ok
          (populateSummaries (followUser allOk uA.id uB.id
            (unfollowUser allOk uA.id uB.id s).store).store
            (uB.followers.filter (fun id => id != uA.id) ++ [uA.id]))
          (populateSummaries (followUser allOk uA.id uB.id
            (unfollowUser allOk uA.id uB.id s).store).store
            (uB.followers.filter (fun id => id != uA.id) ++ [uA.id])).length := by
    unfold getFollowers
    rw [hfB2]
    simp [hvB]
  refine ⟨by rw [estore2], ⟨_, hfA2, ?_⟩, ⟨_, hfB2, ?_, hmemB⟩,
    ⟨_, _, _, _, hgf0, hgf2, populate_membership_congr hmemB hsum⟩⟩
  · exact count_append_self _ uB.id hnm
  · exact count_append_self _ uA.id hnm2

/-- Witness for C6: round-tripping the edge alice→bob. -/
theorem unfollow_refollow_round_trip_witness :
    isValidObjectId bobFollowed.id = true ∧ aliceFollows.id ≠ bobFollowed.id
    ∧ findById storeEdge aliceFollows.id = some aliceFollows
    ∧ findById storeEdge bobFollowed.id = some bobFollowed
    ∧ bobFollowed.id ∈ aliceFollows.following ∧ aliceFollows.id ∈ bobFollowed.followers
    ∧ ((followUser allOk aliceFollows.id bobFollowed.id
          (unfollowUser allOk aliceFollows.id bobFollowed.id storeEdge).store).response.status = 200
      ∧ (∃ uA2, findById (followUser allOk aliceFollows.id bobFollowed.id
            (unfollowUser allOk aliceFollows.id bobFollowed.id storeEdge).store).store
            aliceFollows.id = some uA2
          ∧ uA2.following.count bobFollowed.id = 1)
      ∧ (∃ uB2, findById (followUser allOk aliceFollows.id bobFollowed.id
            (unfollowUser allOk aliceFollows.id bobFollowed.id storeEdge).store).store
            bobFollowed.id = some uB2
          ∧ uB2.followers.count aliceFollows.id = 1
          ∧ ∀ x, x ∈ uB2.followers ↔ x ∈ bobFollowed.followers)
      ∧ (∃ items0 total0 items2 total2,
          getFollowers bobFollowed.id storeEdge = ListResult.ok items0 total0
          ∧ getFollowers bobFollowed.id (followUser allOk aliceFollows.id bobFollowed.id
              (unfollowUser allOk aliceFollows.id bobFollowed.id storeEdge).store).store
              = ListResult.ok items2 total2
          ∧ ∀ y, y ∈ items2 ↔ y ∈ items0)) :=
  ⟨by decide, by decide, by decide, by decide, by decide, by decide,
    unfollow_refollow_round_trip aliceFollows bobFollowed storeEdge
      (by decide) (by decide) (by decide) (by decide) (by decide) (by decide)⟩

/-- C4 counterexample: with a malformed target id, `followUser` fails
validation (HTTP 400), yet its execution trace opens the transaction
first — `txOpen` precedes the validation-error response, so the
transaction is opened prior to completing validation, contrary to the
claim. -/
theorem tx_opened_before_validation_cex :
    (followUser allOk alice.id "not-a-valid-object-id" store0).response.status = 400
    ∧ (followUser allOk alice.id "not-a-valid-object-id" store0).events
        = [Event.txOpen, Event.respond 400] := by
  constructor
  · rfl
  · rfl

/-- C4 (amended): in `followUser` and `unfollowUser` every validation
failure (400/404/409) is returned immediately upon detection with the
store untouched and nothing committed — the trace is exactly the
transaction open followed by the error response — though the session
and transaction are opened at entry, before validation. -/
theorem validation_failure_immediate :
    (∀ beh A B s,
      (followUser beh A B s).response.status = 400
        ∨ (followUser beh A B s).response.status = 404
        ∨ (followUser beh A B s).response.status = 409 →
      (followUser beh A B s).store = s
      ∧ (followUser beh A B s).events
          = [Event.txOpen, Event.respond (followUser beh A B s).response.status])
    ∧ (∀ beh A B s,
      (unfollowUser beh A B s).response.status = 400
        ∨ (unfollowUser beh A B s).response.status = 404
        ∨ (unfollowUser beh A B s).response.status = 409 →
      (unfollowUser beh A B s).store = s
      ∧ (unfollowUser beh A B s).events
          = [Event.txOpen, Event.respond (unfollowUser beh A B s).response.status]) := by
  constructor
  · intro beh A B s
    unfold followUser
    split
    · intro _
      exact ⟨rfl, rfl⟩
    · split
      · intro _
        exact ⟨rfl, rfl⟩
      · split
        next me tu hA hB =>
          split
          · intro _
            exact ⟨rfl, rfl⟩
          · split
            · intro h
              rcases h with h | h | h <;> simp at h
            · intro h
              rcases h with h | h | h <;> simp at h
        next h1 h2 =>
          intro _
          exact ⟨rfl, rfl⟩
  · intro beh A B s
    unfold unfollowUser
    split
    · intro _
      exact ⟨rfl, rfl⟩
    · split
      next me tu hA hB =>
        split
        · intro h
          rcases h with h | h | h <;> simp at h
        · intro h
          rcases h with h | h | h <;> simp at h
      next h1 h2 =>
        intro _
        exact ⟨rfl, rfl⟩

/-- Witness for C4 (amended): a malformed id on follow, a missing user
on unfollow. -/
theorem validation_failure_immediate_witness :
    ((followUser allOk alice.id "zz" store0).store = store0
      ∧ (followUser allOk alice.id "zz" store0).events
          = [Event.txOpen, Event.respond (followUser allOk alice.id "zz" store0).response.status])
    ∧ ((unfollowUser allOk alice.id idC store0).store = store0
      ∧ (unfollowUser allOk alice.id idC store0).events
          = [Event.txOpen,
             Event.respond (unfollowUser allOk alice.id idC store0).response.status]) :=
  ⟨validation_failure_immediate.1 allOk alice.id "zz" store0 (Or.inl (by decide)),
   validation_failure_immediate.2 allOk alice.id idC store0 (Or.inr (Or.inl (by decide)))⟩

/-- Witness for C10 on a store whose arrays hold each id twice. -/
theorem unfollow_removes_all_occurrences_witness :
    isValidObjectId bobDup.id = true ∧ aliceDup.id ≠ bobDup.id
    ∧ findById storeDup aliceDup.id = some aliceDup
    ∧ findById storeDup bobDup.id = some bobDup
    ∧ ((unfollowUser allOk aliceDup.id bobDup.id storeDup).response.status = 200
      ∧ (∃ uA2, findById (unfollowUser allOk aliceDup.id bobDup.id storeDup).store aliceDup.id
            = some uA2
          ∧ uA2.following.count bobDup.id = 0)
      ∧ (∃ uB2, findById (unfollowUser allOk aliceDup.id bobDup.id storeDup).store bobDup.id
            = some uB2
          ∧ uB2.followers.count aliceDup.id = 0)) :=
  ⟨by decide, by decide, by decide, by decide,
    unfollow_removes_all_occurrences aliceDup bobDup storeDup
      (by decide) (by decide) (by decide) (by decide)⟩

end FollowApp

namespace FollowApp

/-- A duplicate-free array stays duplicate-free after appending an
absent id. -/
lemma nodup_append_singleton {l : List String} {b : String}
    (hl : l.Nodup) (hb : b ∉ l) : (l ++ [b]).Nodup := by
  simp [List.nodup_append, hl, hb]

/-- A document of a store after two saves is one of the saved
documents or an original member. -/
lemma mem_two_saves {s : Store} {u1 u2 u : UserDoc}
    (hu : u ∈ saveUser (saveUser s u1) u2) :
    u = u1 ∨ u = u2 ∨ u ∈ s := by
  unfold saveUser at hu
  rcases List.mem_map.mp hu with ⟨v, hv, hveq⟩
  rcases List.mem_map.mp hv with ⟨w, hw, hweq⟩
  by_cases h2 : (v.id == u2.id)
  · rw [if_pos h2] at hveq
    exact Or.inr (Or.inl hveq.symm)
  · rw [if_neg h2] at hveq
    subst hveq
    by_cases h1 : (w.id == u1.id)
    · rw [if_pos h1] at hweq
      exact Or.inl hweq.symm
    · rw [if_neg h1] at hweq
      subst hweq
      exact Or.inr (Or.inr hw)

/-- A two-save store has duplicate-free arrays when the original store
and both saved documents do. -/
lemma nodupArrays_two_saves {s : Store} {u1 u2 : UserDoc}
    (hs : NodupArrays s)
    (h1 : u1.followers.Nodup ∧ u1.following.Nodup)
    (h2 : u2.followers.Nodup ∧ u2.following.Nodup) :
    NodupArrays (saveUser (saveUser s u1) u2) := by
  intro u hu
  rcases mem_two_saves hu with rfl | rfl | hmem
  · exact h1
  · exact h2
  · exact hs u hmem

/-- C8: from a consistent, duplicate-free state both operations keep
every stored array duplicate-free, because `followUser` decides
"already following" from the caller's array alone while consistency
makes the target's array agree; from an out-of-lockstep state — caller
already among the target's followers but target absent from the
caller's following — `followUser` succeeds and appends a further
occurrence of the caller to the target's followers. -/
theorem embedded_array_invariants :
    (∀ beh A B s, Lockstep s → NodupArrays s → NodupArrays (followUser beh A B s).store)
    ∧ (∀ beh A B s, NodupArrays s → NodupArrays (unfollowUser beh A B s).store)
    ∧ (∀ uA uB s, isValidObjectId uB.id = true → uA.id ≠ uB.id →
        findById s uA.id = some uA → findById s uB.id = some uB →
        uB.id ∉ uA.following → uA.id ∈ uB.followers →
        (followUser allOk uA.id uB.id s).response.status = 200
        ∧ ∃ uB2, findById (followUser allOk uA.id uB.id s).store uB.id = some uB2
            ∧ uB2.followers.count uA.id = uB.followers.count uA.id + 1
            ∧ 2 ≤ uB2.followers.count uA.id) := by
  refine ⟨?_, ?_, ?_⟩
  · intro beh A B s hlock hnd
    unfold followUser
    split
    · exact hnd
    · split
      · exact hnd
      · split
        next me tu hA hB =>
          split
          · exact hnd
          · split
            next hcont hbeh =>
              have hmemMe : me ∈ s := by
                have hA' := hA
                unfold findById at hA'
                exact List.mem_of_find?_eq_some hA'
              have hmemTu : tu ∈ s := by
                have hB' := hB
                unfold findById at hB'
                exact List.mem_of_find?_eq_some hB'
              rcases hnd me hmemMe with ⟨hmf, hmg⟩
              rcases hnd tu hmemTu with ⟨htf, htg⟩
              have hBnotin : B ∉ me.following := by
                intro hmem
                exact hcont (List.elem_iff.mpr hmem)
              have hAnotin : A ∉ tu.followers := by
                intro hmem
                exact hBnotin ((hlock A B me tu hA hB).mpr hmem)
              exact nodupArrays_two_saves hnd
                ⟨hmf, nodup_append_singleton hmg hBnotin⟩
                ⟨nodup_append_singleton htf hAnotin, htg⟩
            next hcont hbeh => exact hnd
        next h1 h2 => exact hnd
  · intro beh A B s hnd
    unfold unfollowUser
    split
    · exact hnd
    · split
      next me tu hA hB =>
        split
        next hbeh =>
          have hmemMe : me ∈ s := by
            have hA' := hA
            unfold findById at hA'
            exact List.mem_of_find?_eq_some hA'
          have hmemTu : tu ∈ s := by
            have hB' := hB
            unfold findById at hB'
            exact List.mem_of_find?_eq_some hB'
          rcases hnd me hmemMe with ⟨hmf, hmg⟩
          rcases hnd tu hmemTu with ⟨htf, htg⟩
          exact nodupArrays_two_saves hnd
            ⟨hmf, hmg.filter _⟩
            ⟨htf.filter _, htg⟩
        next hbeh => exact hnd
      next h1 h2 => exact hnd
  · intro uA uB s hvB hne hA hB hnotf hinr
    have hAB : (uA.id == uB.id) = false := by simp [beq_iff_eq, hne]
    have hc : uA.following.contains uB.id = false := by
      refine Bool.eq_false_iff.mpr ?_
      intro hcontra
      exact hnotf (List.elem_iff.mp hcontra)
    have estore : followUser allOk uA.id uB.id s
        = { events := [.txOpen, .txCommit, .respond 200]
            response := ⟨200, true, "User followed successfully"⟩
            store :=
              saveUser
                (saveUser s { uA with following := uA.following ++ [uB.id] })
                { uB with followers := uB.followers ++ [uA.id] } } := by
      unfold followUser
      rw [hA, hB]
      simp [hvB, hAB, hc, hnotf, allOk]
    have hfB2 : findById (followUser allOk uA.id uB.id s).store uB.id
        = some { uB with followers := uB.followers ++ [uA.id] } := by
      rw [estore]
      exact findById_two_saves_snd hB hne.symm
    have hcnt : (uB.followers ++ [uA.id]).count uA.id = uB.followers.count uA.id + 1 := by
      simp [List.count_append]
    have hpos : 1 ≤ uB.followers.count uA.id := List.count_pos_iff.mpr hinr
    refine ⟨by rw [estore], ⟨{ uB with followers := uB.followers ++ [uA.id] }, hfB2, hcnt, ?_⟩⟩
    rw [hcnt]
    omega

/-- Lookups in the two-user fixture store resolve to alice or bob. -/
lemma findById_store0_cases {a : String} {u : UserDoc}
    (h : findById store0 a = some u) :
    (a = idA ∧ u = alice) ∨ (a = idB ∧ u = bob) := by
  by_cases hA : a = idA
  · subst hA
    have he : findById store0 idA = some alice := by decide
    rw [he] at h
    cases h
    exact Or.inl ⟨rfl, rfl⟩
  · by_cases hB : a = idB
    · subst hB
      have he : findById store0 idB = some bob := by decide
      rw [he] at h
      cases h
      exact Or.inr ⟨rfl, rfl⟩
    · exfalso
      have hnone : findById store0 a = none := by
        unfold findById store0
        rw [List.find?_eq_none]
        intro x hx hpa
        have hxa := eq_of_beq hpa
        rcases List.mem_cons.mp hx with rfl | hx2
        · exact hA hxa.symm
        · rcases List.mem_cons.mp hx2 with rfl | hx3
          · exact hB hxa.symm
          · cases hx3
      rw [hnone] at h
      cases h

/-- The fixture store is in lockstep: both graph arrays are empty. -/
lemma lockstep_store0 : Lockstep store0 := by
  intro a b ua ub hA hB
  rcases findById_store0_cases hA with ⟨rfl, rfl⟩ | ⟨rfl, rfl⟩ <;>
    rcases findById_store0_cases hB with ⟨rfl, rfl⟩ | ⟨rfl, rfl⟩ <;>
      simp [alice, bob]

/-- The fixture store's arrays are duplicate-free: all empty. -/
lemma nodupArrays_store0 : NodupArrays store0 := by
  intro u hu
  have hu2 : u ∈ [alice, bob] := hu
  rcases List.mem_cons.mp hu2 with rfl | hu3
  · constructor <;> simp [alice]
  · rcases List.mem_cons.mp hu3 with rfl | hu4
    · constructor <;> simp [bob]
    · cases hu4

/-- Witness for C8: preservation on the clean two-user store, and the
duplicated-follower effect on the skewed store. -/
theorem embedded_array_invariants_witness :
    (Lockstep store0 ∧ NodupArrays store0
      ∧ NodupArrays (followUser allOk idA idB store0).store
      ∧ NodupArrays (unfollowUser allOk idA idB store0).store)
    ∧ (isValidObjectId bobSkewed.id = true ∧ alice.id ≠ bobSkewed.id
      ∧ findById storeSkewed alice.id = some alice
      ∧ findById storeSkewed bobSkewed.id = some bobSkewed
      ∧ bobSkewed.id ∉ alice.following ∧ alice.id ∈ bobSkewed.followers
      ∧ ((followUser allOk alice.id bobSkewed.id storeSkewed).response.status = 200
        ∧ ∃ uB2, findById (followUser allOk alice.id bobSkewed.id storeSkewed).store
              bobSkewed.id = some uB2
            ∧ uB2.followers.count alice.id = bobSkewed.followers.count alice.id + 1
            ∧ 2 ≤ uB2.followers.count alice.id)) :=
  ⟨⟨lockstep_store0, nodupArrays_store0,
    embedded_array_invariants.1 allOk idA idB store0 lockstep_store0 nodupArrays_store0,
    embedded_array_invariants.2.1 allOk idA idB store0 nodupArrays_store0⟩,
   by decide, by decide, by decide, by decide, by decide, by decide,
   embedded_array_invariants.2.2 alice bobSkewed storeSkewed
     (by decide) (by decide) (by decide) (by decide) (by decide) (by decide)⟩

end FollowApp

namespace Auth106

/-- C9: the class-106 login controller never answers with the success
outcome — the user is fetched without re-selecting the password the
schema hides, so the bcrypt comparison throws on an absent hash and the
catch block answers 500; moreover registration persists a hash of a
hash (the pre-save hook re-hashes the already-hashed value), which can
never compare equal to the plaintext's hash. -/
theorem login_never_succeeds :
    (∀ identifier password db,
      (LoginController identifier password db).isSuccess = false)
    ∧ (∀ p, registerStoredPassword p = bcryptHashStr (bcryptHashStr p)
        ∧ (bcryptHashStr (bcryptHashStr p) == bcryptHashStr p) = false
        ∧ bcryptCompare p (some (registerStoredPassword p)) = Except.ok false) := by
  constructor
  · intro identifier password db
    unfold LoginController
    split
    · rfl
    · split
      · rfl
      · rfl
  · intro p
    have hne : bcryptHashStr (bcryptHashStr p) ≠ bcryptHashStr p := by
      intro hcontra
      have hlen := congrArg String.length hcontra
      unfold bcryptHashStr at hlen
      simp only [String.length_append] at hlen
      have h7 : "bcrypt$".length = 7 := rfl
      rw [h7] at hlen
      omega
    have hbeq : (bcryptHashStr (bcryptHashStr p) == bcryptHashStr p) = false :=
      beq_eq_false_iff_ne.mpr hne
    refine ⟨rfl, hbeq, ?_⟩
    show Except.ok (bcryptHashStr (bcryptHashStr p) == bcryptHashStr p) = Except.ok false
    rw [hbeq]

end Auth106
